import Mathlib

/-!
# Verification of the HC-SR04 distance-sensor driver core (src/hc-sr04.c)

A shallow embedding of the driver's measurement state machine, edge-capture
interrupt handler, registry (device list) operations, and resource
setup/teardown, together with theorems settling the specification claims.

Modelling conventions:
* C `int` flags written only as 0/1 become `Bool`.
* `struct timespec64` becomes a pair of `Int` fields (`tv_sec`, `tv_nsec`);
  C signed division truncates toward zero, rendered as `Int.tdiv`.
* Kernel error codes keep their numeric values (`-EBUSY` = -16, ...).
* The asynchronous environment (GPIO request outcomes, IRQ numbers, wait
  outcomes, edge deliveries) is passed in explicitly as data.
* Ordering properties of side-effecting sequences are settled on explicit
  action traces transcribed from the same source functions.
-/

namespace HcSr04

/-- Kernel error number `EINVAL`. -/
def EINVAL : Int := 22
/-- Kernel error number `EBUSY`. -/
def EBUSY : Int := 16
/-- Kernel error number `ETIMEDOUT`. -/
def ETIMEDOUT : Int := 110
/-- Kernel error number `ERESTARTSYS` (returned, negated, by an interrupted
interruptible wait). -/
def ERESTARTSYS : Int := 512
/-- Kernel error number `ENOMEM`. -/
def ENOMEM : Int := 12
/-- Kernel error number `EEXIST`. -/
def EEXIST : Int := 17
/-- Kernel error number `ENODEV`. -/
def ENODEV : Int := 19

/-- `struct timespec64`: a timestamp with seconds and nanoseconds fields. -/
structure Timespec64 where
  tv_sec : Int
  tv_nsec : Int
deriving DecidableEq, Repr

/-- The mutable measurement fields of `struct hc_sr04` shared between the
interrupt handler and the measuring context: `time_triggered`, `time_echoed`,
`echo_received`, `device_triggered`. -/
structure MeasState where
  time_triggered : Timespec64
  time_echoed : Timespec64
  echo_received : Bool
  device_triggered : Bool
deriving DecidableEq, Repr

/-- `echo_received_irq` (src/hc-sr04.c:162-185): the edge-capture interrupt
handler.  Inputs are the shared measurement state, the echo-pin level read by
`__gpio_get_value` (1 = high), and the timestamp taken by
`ktime_get_real_ts64` on entry.  Returns the updated state and whether
`wake_up_interruptible` was called on `wait_for_echo`. -/
def echo_received_irq (device : MeasState) (val : Int) (irq_ts : Timespec64) :
    MeasState × Bool :=
  if !device.device_triggered then (device, false)
  else if device.echo_received then (device, false)
  else if val = 1 then ({ device with time_triggered := irq_ts }, false)
  else ({ device with time_echoed := irq_ts, echo_received := true }, true)

/-- A concrete timestamp used by witnesses. -/
def ts0 : Timespec64 := ⟨5, 300⟩

/-- A concrete timestamp used by witnesses. -/
def ts1 : Timespec64 := ⟨7, 123456⟩

/-- A concrete measurement state used by witnesses. -/
def mEchoDone : MeasState :=
  { time_triggered := ts0, time_echoed := ts1,
    echo_received := true, device_triggered := true }

/-- C1: if `device_triggered` is false or `echo_received` is already true, the
edge handler returns the state unchanged (no timing field written,
`echo_received` not set) and does not signal the wait queue; in particular a
falling edge arriving after `echo_received` is true leaves `time_echoed`
unchanged and does not re-wake the waiter. -/
theorem echo_received_irq_noop (device : MeasState) (val : Int)
    (irq_ts : Timespec64)
    (h : device.device_triggered = false ∨ device.echo_received = true) :
    echo_received_irq device val irq_ts = (device, false) ∧
    (echo_received_irq device val irq_ts).1.time_echoed = device.time_echoed ∧
    (echo_received_irq device val irq_ts).1.echo_received =
      device.echo_received ∧
    (echo_received_irq device val irq_ts).2 = false := by
  have hmain : echo_received_irq device val irq_ts = (device, false) := by
    unfold echo_received_irq
    rcases h with h | h
    · simp [h]
    · simp [h]
  exact ⟨hmain, by rw [hmain], by rw [hmain], by rw [hmain]⟩

/-- Witness for C1: a second falling edge (level 0) delivered after
`echo_received` is already true is a no-op. -/
theorem echo_received_irq_noop_witness :
    (mEchoDone.device_triggered = false ∨ mEchoDone.echo_received = true) ∧
    echo_received_irq mEchoDone 0 ⟨9, 0⟩ = (mEchoDone, false) :=
  ⟨Or.inr rfl, (echo_received_irq_noop mEchoDone 0 ⟨9, 0⟩ (Or.inr rfl)).1⟩

/-! ## Functional model of `do_measurement` (src/hc-sr04.c:191-233) -/

/-- The lock and shared-state view of one sensor plus the global
`devices_mutex`, as seen by `do_measurement`.  `true` means the mutex is
currently locked. -/
structure Sys where
  devices_mutex : Bool
  measurement_mutex : Bool
  meas : MeasState
deriving DecidableEq, Repr

/-- What `wait_event_interruptible_timeout` does when the wake condition is
still false: either the timeout expires (return 0) or the sleeping task is
interrupted by a signal (return `-ERESTARTSYS`). -/
inductive WaitEnv where
  | expire
  | interrupt
deriving DecidableEq, Repr

/-- Return value of `wait_event_interruptible_timeout(wait_for_echo,
echo_received, timeout)`: positive when the condition holds on wakeup,
0 on expiry, `-ERESTARTSYS` when interrupted. -/
def wait_event_interruptible_timeout (echoReceived : Bool) (env : WaitEnv) :
    Int :=
  if echoReceived then 1
  else match env with
  | .expire => 0
  | .interrupt => -ERESTARTSYS

/-- Lines 208-209 of `do_measurement`: arm a measurement by clearing
`echo_received` and `device_triggered` (and nothing else). -/
def arm (m : MeasState) : MeasState :=
  { m with echo_received := false, device_triggered := false }

/-- Deliver a sequence of echo-pin edges (level, timestamp) to the interrupt
handler, accumulating whether any of them signalled the wait queue. -/
def runEdges (m : MeasState) (edges : List (Int × Timespec64)) :
    MeasState × Bool :=
  edges.foldl
    (fun acc e =>
      let r := echo_received_irq acc.1 e.1 e.2
      (r.1, acc.2 || r.2))
    (m, false)

/-- Lines 224-226 of `do_measurement`: the elapsed time in whole microseconds,
`(tv_sec difference) * 1000000 + (tv_nsec difference) / 1000`, with C's
truncating signed division. -/
def elapsed_usecs (time_triggered time_echoed : Timespec64) : Int :=
  (time_echoed.tv_sec - time_triggered.tv_sec) * 1000000 +
    Int.tdiv (time_echoed.tv_nsec - time_triggered.tv_nsec) 1000

/-- Result of `do_measurement`: the returned error code (`ret`), the value
stored through `usecs_elapsed` (only on success), and the final lock/state
view. -/
structure MeasOut where
  ret : Int
  usecs_elapsed : Option Int
  sys : Sys
deriving DecidableEq, Repr

/-- `do_measurement` (src/hc-sr04.c:191-233).  Called with `devices_mutex`
held.  `edges` are the echo-pin edges the interrupt handler receives while
the measurement is armed; `env` resolves the wait when no falling edge was
captured.  Steps, in source order: `mutex_trylock(&measurement_mutex)`
(fail → unlock `devices_mutex`, return `-EBUSY`); unlock `devices_mutex`;
`msleep(60)`; clear `echo_received` and `device_triggered`; raise the trigger
pin, `udelay(10)`, set `device_triggered`, lower the trigger pin; wait on
`wait_for_echo` for `echo_received`; dispatch on the wait's return value;
unlock `measurement_mutex`. -/
def do_measurement (s : Sys) (edges : List (Int × Timespec64))
    (env : WaitEnv) : MeasOut :=
  if s.measurement_mutex then
    { ret := -EBUSY, usecs_elapsed := none,
      sys := { s with devices_mutex := false } }
  else
    let s1 : Sys := { s with measurement_mutex := true, devices_mutex := false }
    let m0 := arm s1.meas
    let m1 : MeasState := { m0 with device_triggered := true }
    let m2 := (runEdges m1 edges).1
    let timeout := wait_event_interruptible_timeout m2.echo_received env
    if timeout = 0 then
      { ret := -ETIMEDOUT, usecs_elapsed := none,
        sys := { s1 with meas := m2, measurement_mutex := false } }
    else if timeout < 0 then
      { ret := timeout, usecs_elapsed := none,
        sys := { s1 with meas := m2, measurement_mutex := false } }
    else
      { ret := 0,
        usecs_elapsed := some (elapsed_usecs m2.time_triggered m2.time_echoed),
        sys := { s1 with meas := m2, measurement_mutex := false } }

/-- A concrete unlocked system state for witnesses. -/
def sysIdle : Sys :=
  { devices_mutex := true, measurement_mutex := false,
    meas := { time_triggered := ts0, time_echoed := ts0,
              echo_received := false, device_triggered := false } }

/-- C3: when the wait is woken with `echo_received` true (lock having been
acquired), `do_measurement` succeeds and stores exactly
`(time_echoed.tv_sec - time_triggered.tv_sec) * 1000000 +
(time_echoed.tv_nsec - time_triggered.tv_nsec) / 1000`, computed from the two
captured timestamps of the final state. -/
theorem do_measurement_elapsed (s : Sys) (edges : List (Int × Timespec64))
    (env : WaitEnv) (hlock : s.measurement_mutex = false)
    (hecho : (do_measurement s edges env).sys.meas.echo_received = true) :
    (do_measurement s edges env).ret = 0 ∧
    (do_measurement s edges env).usecs_elapsed =
      some (elapsed_usecs
        (do_measurement s edges env).sys.meas.time_triggered
        (do_measurement s edges env).sys.meas.time_echoed) := by
  unfold do_measurement at *
  simp only [hlock, if_neg Bool.false_ne_true] at *
  set m2 := (runEdges { arm s.meas with device_triggered := true } edges).1
    with hm2
  by_cases h : m2.echo_received
  · simp [wait_event_interruptible_timeout, h]
  · simp only [wait_event_interruptible_timeout, if_neg h] at hecho ⊢
    cases env <;> simp_all [ERESTARTSYS]

/-- Witness for C3: a single falling edge at `ts1` wakes the waiter and the
elapsed value is computed from the final timestamps. -/
theorem do_measurement_elapsed_witness :
    sysIdle.measurement_mutex = false ∧
    (do_measurement sysIdle [(0, ts1)] .expire).sys.meas.echo_received =
      true ∧
    (do_measurement sysIdle [(0, ts1)] .expire).ret = 0 ∧
    (do_measurement sysIdle [(0, ts1)] .expire).usecs_elapsed =
      some (elapsed_usecs
        (do_measurement sysIdle [(0, ts1)] .expire).sys.meas.time_triggered
        (do_measurement sysIdle [(0, ts1)] .expire).sys.meas.time_echoed) := by
  refine ⟨rfl, by decide, ?_⟩
  exact do_measurement_elapsed sysIdle [(0, ts1)] .expire rfl (by decide)

/-- C4: after the try-lock succeeds, `do_measurement` has exactly three
possible outcomes, decided by the wait result: `-ETIMEDOUT` when the wait
expires without an echo; `-ERESTARTSYS` (distinct from the timeout error)
when the wait is interrupted; otherwise success with the elapsed-microseconds
value stored.  No other return value is possible on this path. -/
theorem do_measurement_outcomes (s : Sys) (edges : List (Int × Timespec64))
    (env : WaitEnv) (hlock : s.measurement_mutex = false) :
    (((do_measurement s edges env).sys.meas.echo_received = false ∧
        env = .expire) →
      (do_measurement s edges env).ret = -ETIMEDOUT ∧
      (do_measurement s edges env).usecs_elapsed = none) ∧
    (((do_measurement s edges env).sys.meas.echo_received = false ∧
        env = .interrupt) →
      (do_measurement s edges env).ret = -ERESTARTSYS ∧
      (do_measurement s edges env).ret ≠ -ETIMEDOUT ∧
      (do_measurement s edges env).usecs_elapsed = none) ∧
    ((do_measurement s edges env).sys.meas.echo_received = true →
      (do_measurement s edges env).ret = 0 ∧
      ∃ v, (do_measurement s edges env).usecs_elapsed = some v) ∧
    ((do_measurement s edges env).ret = -ETIMEDOUT ∨
      (do_measurement s edges env).ret = -ERESTARTSYS ∨
      (do_measurement s edges env).ret = 0) := by
  unfold do_measurement
  simp only [hlock, if_neg Bool.false_ne_true]
  set m2 := (runEdges { arm s.meas with device_triggered := true } edges).1
    with hm2
  by_cases h : m2.echo_received
  · simp [wait_event_interruptible_timeout, h]
  · cases env <;>
      simp_all [wait_event_interruptible_timeout, ERESTARTSYS, ETIMEDOUT]

/-- Witness for C4 at a concrete state: no edges and an expiring wait gives
the timeout outcome. -/
theorem do_measurement_outcomes_witness :
    sysIdle.measurement_mutex = false ∧
    ((do_measurement sysIdle [] .expire).ret = -ETIMEDOUT ∨
      (do_measurement sysIdle [] .expire).ret = -ERESTARTSYS ∨
      (do_measurement sysIdle [] .expire).ret = 0) :=
  ⟨rfl, (do_measurement_outcomes sysIdle [] .expire rfl).2.2.2⟩

/-- C6: whenever `do_measurement` starts with the measurement mutex free
(so the try-lock acquires it), the mutex is free again on return — on the
success, timeout and interruption paths alike. -/
theorem do_measurement_unlocks (s : Sys) (edges : List (Int × Timespec64))
    (env : WaitEnv) (hlock : s.measurement_mutex = false) :
    (do_measurement s edges env).sys.measurement_mutex = false := by
  unfold do_measurement
  simp only [hlock, if_neg Bool.false_ne_true]
  set m2 := (runEdges { arm s.meas with device_triggered := true } edges).1
  by_cases h : m2.echo_received
  · simp [wait_event_interruptible_timeout, h]
  · cases env <;>
      simp_all [wait_event_interruptible_timeout, ERESTARTSYS]

/-- Witness for C6: the lock is free after a concrete timed-out measurement. -/
theorem do_measurement_unlocks_witness :
    sysIdle.measurement_mutex = false ∧
    (do_measurement sysIdle [] .expire).sys.measurement_mutex = false :=
  ⟨rfl, do_measurement_unlocks sysIdle [] .expire rfl⟩

/-- C10: arming clears only `echo_received` and `device_triggered` and leaves
both timestamps alone; consequently, if the only edge delivered during a
measurement is a falling edge at time `ts`, the measurement succeeds and
returns the elapsed time computed from the stale `time_triggered` carried
over from before the measurement, paired with the new `time_echoed = ts`. -/
theorem do_measurement_stale_trigger (s : Sys) (ts : Timespec64)
    (env : WaitEnv) (hlock : s.measurement_mutex = false) :
    (∀ m : MeasState, (arm m).time_triggered = m.time_triggered ∧
      (arm m).time_echoed = m.time_echoed ∧
      (arm m).echo_received = false ∧ (arm m).device_triggered = false) ∧
    (do_measurement s [(0, ts)] env).ret = 0 ∧
    (do_measurement s [(0, ts)] env).sys.meas.time_triggered =
      s.meas.time_triggered ∧
    (do_measurement s [(0, ts)] env).usecs_elapsed =
      some (elapsed_usecs s.meas.time_triggered ts) := by
  refine ⟨fun m => ⟨rfl, rfl, rfl, rfl⟩, ?_⟩
  unfold do_measurement
  simp only [hlock, if_neg Bool.false_ne_true]
  simp [runEdges, echo_received_irq, arm, wait_event_interruptible_timeout]

/-- Witness for C10: with a falling-only edge at `ts1`, the result is computed
from the pre-measurement `time_triggered` (`ts0`). -/
theorem do_measurement_stale_trigger_witness :
    sysIdle.measurement_mutex = false ∧
    (do_measurement sysIdle [(0, ts1)] .expire).usecs_elapsed =
      some (elapsed_usecs sysIdle.meas.time_triggered ts1) :=
  ⟨rfl, (do_measurement_stale_trigger sysIdle ts1 .expire rfl).2.2.2⟩

/-! ## Action traces

Side-effect ordering within `do_measurement` and `remove_sensor` is settled
on explicit traces transcribed statement by statement from the source. -/

/-- The observable actions performed by `do_measurement`, in source order. -/
inductive Action where
  | trylockMeasurement (ok : Bool)
  | unlockDevices
  | msleep (ms : Nat)
  | clearEchoReceived
  | clearDeviceTriggered
  | setTrig (level : Int)
  | udelay (us : Nat)
  | setDeviceTriggered
  | waitForEcho
  | computeElapsed
  | unlockMeasurement
  | retCode (c : Int)
deriving DecidableEq, Repr

/-- The action trace of `do_measurement` (src/hc-sr04.c:197-232), by whether
`mutex_trylock(&measurement_mutex)` succeeds.  After the wait the trace takes
the success branch shape; the error branches differ only in the final return
code and are covered by the functional model. -/
def do_measurement_trace (trylockOk : Bool) : List Action :=
  if !trylockOk then
    [.trylockMeasurement false, .unlockDevices, .retCode (-EBUSY)]
  else
    [.trylockMeasurement true, .unlockDevices, .msleep 60,
     .clearEchoReceived, .clearDeviceTriggered,
     .setTrig 1, .udelay 10, .setDeviceTriggered, .setTrig 0,
     .waitForEcho, .computeElapsed, .unlockMeasurement, .retCode 0]

/-- The observable actions of `remove_sensor` together with
`destroy_hc_sr04`, in source order. -/
inductive RemoveAction where
  | findDevice (found : Bool)
  | lockMeasurement
  | deviceUnregister
  | putDevice
  | unlockMeasurement
  | listDel
  | freeIrq
  | gpioFreeEcho
  | gpioFreeTrig
  | kfree
  | retCode (c : Int)
deriving DecidableEq, Repr

/-- The action trace of `remove_sensor` (src/hc-sr04.c:320-338), which on the
found path ends by calling `destroy_hc_sr04` (src/hc-sr04.c:153-160):
`list_del`, `free_irq`, `gpio_free(echo)`, `gpio_free(trig)`, `kfree`. -/
def remove_sensor_trace (found : Bool) : List RemoveAction :=
  if !found then [.findDevice false, .retCode (-ENODEV)]
  else
    [.findDevice true, .lockMeasurement, .deviceUnregister, .putDevice,
     .unlockMeasurement, .listDel, .freeIrq, .gpioFreeEcho, .gpioFreeTrig,
     .kfree, .retCode 0]

/-- C2 counterexample: in the armed trace of `do_measurement` the write
`device_triggered = 1` does NOT come after the trigger pin is driven low —
it comes strictly before it (line 213 precedes line 214), refuting the
claimed ordering. -/
theorem trigger_set_before_pin_low :
    ¬ (List.indexOf (Action.setTrig 0) (do_measurement_trace true) <
        List.indexOf Action.setDeviceTriggered (do_measurement_trace true)) ∧
    List.indexOf Action.setDeviceTriggered (do_measurement_trace true) <
      List.indexOf (Action.setTrig 0) (do_measurement_trace true) := by
  decide

/-- C2 amended: after the settling sleep and the flag clears, the trigger pin
is driven high, held for the 10 microsecond pulse width, then
`device_triggered` is set true, and only after that is the pin driven low:
the flag write falls between the delay and the pin-low write. -/
theorem trigger_pulse_order :
    List.indexOf (Action.msleep 60) (do_measurement_trace true) <
      List.indexOf Action.clearEchoReceived (do_measurement_trace true) ∧
    List.indexOf Action.clearEchoReceived (do_measurement_trace true) <
      List.indexOf Action.clearDeviceTriggered (do_measurement_trace true) ∧
    List.indexOf Action.clearDeviceTriggered (do_measurement_trace true) <
      List.indexOf (Action.setTrig 1) (do_measurement_trace true) ∧
    List.indexOf (Action.setTrig 1) (do_measurement_trace true) <
      List.indexOf (Action.udelay 10) (do_measurement_trace true) ∧
    List.indexOf (Action.udelay 10) (do_measurement_trace true) <
      List.indexOf Action.setDeviceTriggered (do_measurement_trace true) ∧
    List.indexOf Action.setDeviceTriggered (do_measurement_trace true) <
      List.indexOf (Action.setTrig 0) (do_measurement_trace true) ∧
    List.indexOf (Action.setTrig 0) (do_measurement_trace true) <
      List.indexOf Action.waitForEcho (do_measurement_trace true) := by
  decide

/-- C5: if the measurement mutex is already held, `do_measurement` returns
`-EBUSY` immediately, leaves every measurement field of the sensor unchanged
and stores no result; and on both branches `devices_mutex` (the registry
lock) is released as soon as the try-lock outcome is known: before the
settling sleep, the trigger pulse and the wait in the acquired trace, and
with no sleep, pulse or wait at all in the busy trace. -/
theorem do_measurement_busy (s : Sys) (edges : List (Int × Timespec64))
    (env : WaitEnv) (hheld : s.measurement_mutex = true) :
    (do_measurement s edges env).ret = -EBUSY ∧
    (do_measurement s edges env).sys.meas = s.meas ∧
    (do_measurement s edges env).usecs_elapsed = none ∧
    (do_measurement s edges env).sys.devices_mutex = false ∧
    (List.indexOf Action.unlockDevices (do_measurement_trace true) <
        List.indexOf (Action.msleep 60) (do_measurement_trace true) ∧
      List.indexOf Action.unlockDevices (do_measurement_trace true) <
        List.indexOf (Action.setTrig 1) (do_measurement_trace true) ∧
      List.indexOf Action.unlockDevices (do_measurement_trace true) <
        List.indexOf Action.waitForEcho (do_measurement_trace true)) ∧
    (Action.unlockDevices ∈ do_measurement_trace false ∧
      (∀ ms, Action.msleep ms ∉ do_measurement_trace false) ∧
      (∀ lv, Action.setTrig lv ∉ do_measurement_trace false) ∧
      Action.waitForEcho ∉ do_measurement_trace false) := by
  refine ⟨?_, ?_, ?_, ?_, by decide, by decide, ?_, ?_, by decide⟩
  · unfold do_measurement; simp [hheld]
  · unfold do_measurement; simp [hheld]
  · unfold do_measurement; simp [hheld]
  · unfold do_measurement; simp [hheld]
  · intro ms; simp [do_measurement_trace]
  · intro lv; simp [do_measurement_trace]

/-- Witness for C5: calling `do_measurement` while the measurement mutex is
held returns `-EBUSY` with the sensor state untouched. -/
theorem do_measurement_busy_witness :
    ({ sysIdle with measurement_mutex := true } : Sys).measurement_mutex =
      true ∧
    (do_measurement { sysIdle with measurement_mutex := true } []
        .expire).ret = -EBUSY ∧
    (do_measurement { sysIdle with measurement_mutex := true } []
        .expire).sys.meas = sysIdle.meas :=
  ⟨rfl,
    (do_measurement_busy { sysIdle with measurement_mutex := true } []
      .expire rfl).1,
    (do_measurement_busy { sysIdle with measurement_mutex := true } []
      .expire rfl).2.1⟩

/-- C7 counterexample: in the found trace of `remove_sensor`, the edge
handler is NOT unregistered (`free_irq`) before the measurement mutex is
released — the unlock at line 334 precedes the `free_irq` inside
`destroy_hc_sr04` at line 156, refuting the claimed ordering. -/
theorem remove_unlocks_before_free_irq :
    ¬ (List.indexOf RemoveAction.freeIrq (remove_sensor_trace true) <
        List.indexOf RemoveAction.unlockMeasurement
          (remove_sensor_trace true)) ∧
    List.indexOf RemoveAction.unlockMeasurement (remove_sensor_trace true) <
      List.indexOf RemoveAction.freeIrq (remove_sensor_trace true) := by
  decide

/-- C7 amended: when the Sensor is found, `remove_sensor` first acquires the
measurement mutex (waiting out any in-flight measurement), unregisters the
sysfs device, releases the measurement mutex, and only then — via
`destroy_hc_sr04` — removes the Sensor from the device list, unregisters its
edge handler, releases the echo and trigger pins, and frees the Sensor last;
so the free does come after handler unregistration, but the mutex is
released before the handler unregistration, the pin release and the list
removal, not after them. -/
theorem remove_sensor_order :
    List.indexOf RemoveAction.lockMeasurement (remove_sensor_trace true) <
      List.indexOf RemoveAction.deviceUnregister (remove_sensor_trace true) ∧
    List.indexOf RemoveAction.deviceUnregister (remove_sensor_trace true) <
      List.indexOf RemoveAction.unlockMeasurement
        (remove_sensor_trace true) ∧
    List.indexOf RemoveAction.unlockMeasurement (remove_sensor_trace true) <
      List.indexOf RemoveAction.listDel (remove_sensor_trace true) ∧
    List.indexOf RemoveAction.listDel (remove_sensor_trace true) <
      List.indexOf RemoveAction.freeIrq (remove_sensor_trace true) ∧
    List.indexOf RemoveAction.freeIrq (remove_sensor_trace true) <
      List.indexOf RemoveAction.gpioFreeEcho (remove_sensor_trace true) ∧
    List.indexOf RemoveAction.gpioFreeEcho (remove_sensor_trace true) <
      List.indexOf RemoveAction.gpioFreeTrig (remove_sensor_trace true) ∧
    List.indexOf RemoveAction.gpioFreeTrig (remove_sensor_trace true) <
      List.indexOf RemoveAction.kfree (remove_sensor_trace true) := by
  decide

/-! ## Registry and resource model (`add` path and rollback) -/

/-- One registered sensor, as keyed in the `hc_sr04_devices` list. -/
structure Sensor where
  gpio_trig : Int
  gpio_echo : Int
  timeout : Nat
deriving DecidableEq, Repr

/-- The GPIO subsystem's reservation state: the list of requested pins. -/
structure GpioState where
  requested : List Int
deriving DecidableEq, Repr

/-- Outcomes of the external kernel services used by the `add` path.
`gpio_request_ret`/`request_irq_ret` give the return code when the request
is otherwise possible; the kernel returns 0 on success and a negative errno
on failure for both. -/
structure KernelEnv where
  gpio_is_valid : Int → Bool
  gpio_request_ret : Int → Int
  gpio_to_irq : Int → Int
  request_irq_ret : Int → Int
  kmalloc_ok : Bool

/-- `gpio_request`: fails with `-EBUSY` if the pin is already requested,
otherwise fails with the environment's negative code or reserves the pin
and returns 0. -/
def gpio_request (env : KernelEnv) (g : GpioState) (pin : Int) :
    Int × GpioState :=
  if pin ∈ g.requested then (-EBUSY, g)
  else if env.gpio_request_ret pin < 0 then (env.gpio_request_ret pin, g)
  else (0, ⟨g.requested ++ [pin]⟩)

/-- `gpio_free`: releases a reserved pin. -/
def gpio_free (g : GpioState) (pin : Int) : GpioState :=
  ⟨g.requested.erase pin⟩

/-- `setup_hc_sr04_gpio` (src/hc-sr04.c:64-93): validate both pins, request
the trigger pin, request the echo pin (freeing the trigger pin if that
fails), set directions (no reservation effect).  Returns 0 on success. -/
def setup_hc_sr04_gpio (env : KernelEnv) (g : GpioState) (trig echo : Int) :
    Int × GpioState :=
  if !(env.gpio_is_valid trig) || !(env.gpio_is_valid echo) then (-EINVAL, g)
  else
    let r1 := gpio_request env g trig
    if r1.1 < 0 then (r1.1, r1.2)
    else
      let r2 := gpio_request env r1.2 echo
      if r2.1 < 0 then (r2.1, gpio_free r2.2 trig)
      else (r2.1, r2.2)

/-- The driver-wide resource state threaded through the `add` path: GPIO
reservations, live `kmalloc` allocations of `struct hc_sr04`, IRQ lines with
the echo handler registered, and the `hc_sr04_devices` list. -/
structure DriverState where
  gpio : GpioState
  allocs : Nat
  irqs_registered : List Int
  devices : List Sensor
deriving DecidableEq, Repr

/-- `create_hc_sr04` (src/hc-sr04.c:117-151), with `setup_hc_sr04_irq`
(src/hc-sr04.c:95-115) inlined: allocate the sensor, set up the GPIOs
(on failure `kfree` and return the error), translate the echo pin to an IRQ
number and register the handler (on either failure free both GPIOs, `kfree`,
and return the error), then append to `hc_sr04_devices`.  Returns 0 and the
new state on success. -/
def create_hc_sr04 (env : KernelEnv) (st : DriverState) (trig echo : Int)
    (timeout : Nat) : Int × DriverState :=
  if !env.kmalloc_ok then (-ENOMEM, st)
  else
    let st1 : DriverState := { st with allocs := st.allocs + 1 }
    let r := setup_hc_sr04_gpio env st1.gpio trig echo
    if r.1 ≠ 0 then
      (r.1, { st1 with gpio := r.2, allocs := st1.allocs - 1 })
    else
      let st2 : DriverState := { st1 with gpio := r.2 }
      let irq := env.gpio_to_irq echo
      if irq < 0 then
        (irq, { st2 with gpio := gpio_free (gpio_free st2.gpio trig) echo,
                         allocs := st2.allocs - 1 })
      else if env.request_irq_ret irq < 0 then
        (env.request_irq_ret irq,
          { st2 with gpio := gpio_free (gpio_free st2.gpio trig) echo,
                     allocs := st2.allocs - 1 })
      else
        (0, { st2 with irqs_registered := st2.irqs_registered ++ [irq],
                       devices := st2.devices ++ [⟨trig, echo, timeout⟩] })

/-- `find_sensor` (src/hc-sr04.c:289-299): linear search of
`hc_sr04_devices` for the (trigger, echo) key. -/
def find_sensor (devices : List Sensor) (trig echo : Int) : Option Sensor :=
  devices.find? (fun s => s.gpio_trig == trig && s.gpio_echo == echo)

/-- The `add` branch of `configure_store` (src/hc-sr04.c:353-367) with
`add_sensor` inlined: under `devices_mutex`, reject an existing
(trigger, echo) key with `-EEXIST`, otherwise create the sensor.
0 denotes success. -/
def configure_store_add (env : KernelEnv) (st : DriverState)
    (trig echo : Int) (timeout : Nat) : Int × DriverState :=
  match find_sensor st.devices trig echo with
  | some _ => (-EEXIST, st)
  | none => create_hc_sr04 env st trig echo timeout

/-- Number of registered sensors carrying a given (trigger, echo) key. -/
def countKey (devices : List Sensor) (trig echo : Int) : Nat :=
  (devices.filter (fun s => s.gpio_trig == trig && s.gpio_echo == echo)).length

/-- Erasing a freshly appended element restores the list. -/
theorem erase_snoc (l : List Int) (a : Int) (h : a ∉ l) :
    (l ++ [a]).erase a = l := by
  rw [List.erase_append_right _ h]
  simp

/-- `gpio_request` either fails (negative code) leaving the reservation state
unchanged, or succeeds (code 0) on a pin that was free, appending it. -/
theorem gpio_request_spec (env : KernelEnv) (g : GpioState) (pin : Int) :
    ((gpio_request env g pin).1 < 0 ∧ (gpio_request env g pin).2 = g) ∨
    ((gpio_request env g pin).1 = 0 ∧ pin ∉ g.requested ∧
      (gpio_request env g pin).2 = ⟨g.requested ++ [pin]⟩) := by
  unfold gpio_request
  by_cases h1 : pin ∈ g.requested
  · left
    refine ⟨?_, ?_⟩ <;> simp [h1, EBUSY]
  · by_cases h2 : env.gpio_request_ret pin < 0
    · left
      refine ⟨?_, ?_⟩ <;> simp [h1, h2]
    · right
      refine ⟨?_, h1, ?_⟩ <;> simp [h1, h2]

/-- On any failure, `setup_hc_sr04_gpio` leaves the GPIO reservation state
exactly as it found it (the trigger pin is freed again when requesting the
echo pin fails). -/
theorem setup_hc_sr04_gpio_fail (env : KernelEnv) (g : GpioState)
    (trig echo : Int)
    (h : (setup_hc_sr04_gpio env g trig echo).1 ≠ 0) :
    (setup_hc_sr04_gpio env g trig echo).2 = g := by
  unfold setup_hc_sr04_gpio at *
  by_cases hv : !(env.gpio_is_valid trig) || !(env.gpio_is_valid echo)
  · simp [hv]
  · simp only [hv, Bool.false_eq_true, if_false] at *
    rcases gpio_request_spec env g trig with ⟨h1, h2⟩ | ⟨h1, hmem, h2⟩
    · simp [if_pos h1, h2]
    · have h1' : ¬ (gpio_request env g trig).1 < 0 := by omega
      simp only [if_neg h1'] at *
      rcases gpio_request_spec env (gpio_request env g trig).2 echo with
        ⟨h3, h4⟩ | ⟨h3, hmem2, h4⟩
      · simp only [if_pos h3]
        rw [h4, h2, gpio_free]
        exact congrArg GpioState.mk (erase_snoc _ _ hmem)
      · have h3' : ¬ (gpio_request env (gpio_request env g trig).2 echo).1 <
            0 := by omega
        simp only [if_neg h3'] at h
        exact absurd h3 h

/-- On success, `setup_hc_sr04_gpio` has reserved exactly the trigger pin
then the echo pin, both previously free. -/
theorem setup_hc_sr04_gpio_ok (env : KernelEnv) (g : GpioState)
    (trig echo : Int)
    (h : (setup_hc_sr04_gpio env g trig echo).1 = 0) :
    trig ∉ g.requested ∧ echo ∉ g.requested ++ [trig] ∧
    (setup_hc_sr04_gpio env g trig echo).2 =
      ⟨g.requested ++ [trig] ++ [echo]⟩ := by
  unfold setup_hc_sr04_gpio at *
  by_cases hv : !(env.gpio_is_valid trig) || !(env.gpio_is_valid echo)
  · simp only [hv, if_true] at h
    exact absurd h (by norm_num [EINVAL])
  · simp only [hv, Bool.false_eq_true, if_false] at *
    rcases gpio_request_spec env g trig with ⟨h1, h2⟩ | ⟨h1, hmem, h2⟩
    · simp only [if_pos h1] at h
      omega
    · have h1' : ¬ (gpio_request env g trig).1 < 0 := by omega
      simp only [if_neg h1'] at *
      rcases gpio_request_spec env (gpio_request env g trig).2 echo with
        ⟨h3, h4⟩ | ⟨h3, hmem2, h4⟩
      · simp only [if_pos h3] at h
        omega
      · have h3' : ¬ (gpio_request env (gpio_request env g trig).2 echo).1 <
            0 := by omega
        simp only [if_neg h3']
        refine ⟨hmem, ?_, ?_⟩
        · rw [h2] at hmem2
          simpa using hmem2
        · rw [h4, h2]

/-- C9: whenever `create_hc_sr04` fails — allocation, pin validation, either
pin acquisition, IRQ translation or handler registration — the driver state
it returns equals the initial one: no pin stays reserved, no allocation
stays live, no handler stays registered and no Sensor is added to the
device list. -/
theorem create_hc_sr04_fail_rollback (env : KernelEnv) (st : DriverState)
    (trig echo : Int) (timeout : Nat)
    (h : (create_hc_sr04 env st trig echo timeout).1 ≠ 0) :
    (create_hc_sr04 env st trig echo timeout).2 = st ∧
    (create_hc_sr04 env st trig echo timeout).2.gpio.requested =
      st.gpio.requested ∧
    (create_hc_sr04 env st trig echo timeout).2.allocs = st.allocs ∧
    (create_hc_sr04 env st trig echo timeout).2.irqs_registered =
      st.irqs_registered ∧
    (create_hc_sr04 env st trig echo timeout).2.devices = st.devices := by
  have hmain : (create_hc_sr04 env st trig echo timeout).2 = st := by
    unfold create_hc_sr04 at *
    by_cases hk : env.kmalloc_ok
    · simp only [hk, Bool.not_true, Bool.false_eq_true, if_false] at *
      by_cases hr : (setup_hc_sr04_gpio env st.gpio trig echo).1 ≠ 0
      · simp only [if_pos hr]
        have := setup_hc_sr04_gpio_fail env st.gpio trig echo hr
        simp [this]
      · push_neg at hr
        obtain ⟨hmem1, hmem2, hg⟩ :=
          setup_hc_sr04_gpio_ok env st.gpio trig echo hr
        have hmem1' : echo ∉ st.gpio.requested := fun hc =>
          hmem2 (List.mem_append_left _ hc)
        have hfree : gpio_free
            (gpio_free (setup_hc_sr04_gpio env st.gpio trig echo).2 trig)
            echo = st.gpio := by
          rw [hg]
          unfold gpio_free
          have h1 : ((st.gpio.requested ++ [trig] ++ [echo]).erase trig) =
              st.gpio.requested ++ [echo] := by
            rw [List.append_assoc, List.erase_append_right _ hmem1]
            simp
          rw [h1, erase_snoc _ _ hmem1']
        simp only [if_neg (by omega : ¬ (setup_hc_sr04_gpio env st.gpio trig
          echo).1 ≠ 0)] at *
        by_cases hirq : env.gpio_to_irq echo < 0
        · simp only [if_pos hirq]
          simp [hfree]
        · simp only [if_neg hirq] at *
          by_cases hreq : env.request_irq_ret (env.gpio_to_irq echo) < 0
          · simp only [if_pos hreq]
            simp [hfree]
          · simp only [if_neg hreq] at h
            exact absurd rfl h
    · simp only [hk, Bool.not_false, if_true]
  exact ⟨hmain, by rw [hmain], by rw [hmain], by rw [hmain], by rw [hmain]⟩

/-- On success, `create_hc_sr04` appends exactly one Sensor with the given
key to the device list. -/
theorem create_hc_sr04_ok_devices (env : KernelEnv) (st : DriverState)
    (trig echo : Int) (timeout : Nat)
    (h : (create_hc_sr04 env st trig echo timeout).1 = 0) :
    (create_hc_sr04 env st trig echo timeout).2.devices =
      st.devices ++ [⟨trig, echo, timeout⟩] := by
  unfold create_hc_sr04 at *
  by_cases hk : env.kmalloc_ok
  · simp only [hk, Bool.not_true, Bool.false_eq_true, if_false] at *
    by_cases hr : (setup_hc_sr04_gpio env st.gpio trig echo).1 ≠ 0
    · simp only [if_pos hr] at h
      exact absurd h hr
    · simp only [if_neg hr] at *
      by_cases hirq : env.gpio_to_irq echo < 0
      · simp only [if_pos hirq] at h
        omega
      · simp only [if_neg hirq] at *
        by_cases hreq : env.request_irq_ret (env.gpio_to_irq echo) < 0
        · simp only [if_pos hreq] at h
          omega
        · simp only [if_neg hreq]
  · simp only [hk, Bool.not_false, if_true] at h
    exact absurd h (by norm_num [ENOMEM])

/-- If `find_sensor` misses, no registered sensor carries the key. -/
theorem countKey_eq_zero (devices : List Sensor) (trig echo : Int)
    (h : find_sensor devices trig echo = none) :
    countKey devices trig echo = 0 := by
  unfold find_sensor at h
  rw [List.find?_eq_none] at h
  unfold countKey
  simp only [List.length_eq_zero, List.filter_eq_nil_iff]
  intro a ha
  simpa using h a ha

/-- Appending a sensor with the key adds one to the key's count. -/
theorem countKey_snoc (devices : List Sensor) (trig echo : Int)
    (timeout : Nat) :
    countKey (devices ++ [⟨trig, echo, timeout⟩]) trig echo =
      countKey devices trig echo + 1 := by
  unfold countKey
  rw [List.filter_append]
  simp

/-- A sensor list ending in the key is found by `find_sensor`. -/
theorem find_sensor_snoc_ne_none (devices : List Sensor) (trig echo : Int)
    (timeout : Nat) :
    find_sensor (devices ++ [⟨trig, echo, timeout⟩]) trig echo ≠ none := by
  unfold find_sensor
  rw [Ne, List.find?_eq_none]
  push_neg
  exact ⟨⟨trig, echo, timeout⟩, by simp, by simp⟩

/-- C8: starting from a registry without the key, a successful `add`
followed by a second `add` of the same (trigger, echo) pair makes the second
one fail with `-EEXIST`, leave the driver state untouched, and exactly one
Sensor stays registered under that key. -/
theorem configure_add_duplicate (env : KernelEnv) (st : DriverState)
    (trig echo : Int) (timeout : Nat)
    (h0 : find_sensor st.devices trig echo = none)
    (h1 : (configure_store_add env st trig echo timeout).1 = 0) :
    (configure_store_add env
        (configure_store_add env st trig echo timeout).2
        trig echo timeout).1 = -EEXIST ∧
    (configure_store_add env
        (configure_store_add env st trig echo timeout).2
        trig echo timeout).2 =
      (configure_store_add env st trig echo timeout).2 ∧
    countKey (configure_store_add env st trig echo timeout).2.devices
      trig echo = 1 := by
  have hstep : configure_store_add env st trig echo timeout =
      create_hc_sr04 env st trig echo timeout := by
    unfold configure_store_add
    rw [h0]
  rw [hstep] at h1 ⊢
  have hdev := create_hc_sr04_ok_devices env st trig echo timeout h1
  have hfind : find_sensor
      (create_hc_sr04 env st trig echo timeout).2.devices trig echo ≠
      none := by
    rw [hdev]
    exact find_sensor_snoc_ne_none st.devices trig echo timeout
  have hcount : countKey
      (create_hc_sr04 env st trig echo timeout).2.devices trig echo = 1 := by
    rw [hdev, countKey_snoc, countKey_eq_zero st.devices trig echo h0]
  refine ⟨?_, ?_, hcount⟩ <;>
  · unfold configure_store_add
    cases hf : find_sensor
        (create_hc_sr04 env st trig echo timeout).2.devices trig echo with
    | none => exact absurd hf hfind
    | some s => rfl

/-- A kernel environment in which every external service succeeds:
all pins valid, requests succeed, echo pin `p` maps to IRQ `p + 100`. -/
def env0 : KernelEnv :=
  { gpio_is_valid := fun _ => true
    gpio_request_ret := fun _ => 0
    gpio_to_irq := fun p => p + 100
    request_irq_ret := fun _ => 0
    kmalloc_ok := true }

/-- A kernel environment in which IRQ handler registration fails. -/
def envIrqFail : KernelEnv :=
  { env0 with request_irq_ret := fun _ => -5 }

/-- The empty driver state: no pins reserved, no allocations, no handlers,
no devices. -/
def st0 : DriverState :=
  { gpio := ⟨[]⟩, allocs := 0, irqs_registered := [], devices := [] }

/-- Witness for C8: adding (23, 24) twice to an empty registry — the second
add fails with `-EEXIST` and one sensor remains. -/
theorem configure_add_duplicate_witness :
    find_sensor st0.devices 23 24 = none ∧
    (configure_store_add env0 st0 23 24 1000).1 = 0 ∧
    (configure_store_add env0
        (configure_store_add env0 st0 23 24 1000).2 23 24 1000).1 =
      -EEXIST ∧
    countKey (configure_store_add env0 st0 23 24 1000).2.devices 23 24 =
      1 :=
  ⟨rfl, by decide,
    (configure_add_duplicate env0 st0 23 24 1000 rfl (by decide)).1,
    (configure_add_duplicate env0 st0 23 24 1000 rfl (by decide)).2.2⟩

/-- Witness for C9: with IRQ registration failing, `create_hc_sr04` fails
after both pins were requested, and the driver state is fully rolled back. -/
theorem create_hc_sr04_fail_rollback_witness :
    (create_hc_sr04 envIrqFail st0 23 24 1000).1 ≠ 0 ∧
    (create_hc_sr04 envIrqFail st0 23 24 1000).2 = st0 :=
  ⟨by decide,
    (create_hc_sr04_fail_rollback envIrqFail st0 23 24 1000 (by decide)).1⟩

end HcSr04
